import Mathlib

/-!
Verification of the LifeSOS-to-MQTT translator (`lifesospy_mqtt`).

The translator (`src/lifesospy_mqtt/translator.py`) is shallowly embedded
here: each callback/handler becomes a pure function from its inputs and the
mutable translator state to the new state together with the list of MQTT
publish requests (topic, payload, retained flag) it issues, in issue order.
Enumerations and payload-encoding helpers that live in the external
`lifesospy` library or in repository modules not part of the translator
source (`lifesospy_mqtt.enums`, `lifesospy_mqtt.subscribetopic`) are
modelled from the specification, as noted on each such definition.
-/

/-- Modelled from the spec: the base-unit raw state enumeration of the
external controller library (`lifesospy.enums.BaseUnitState`); the spec
names the states Disarm, Home, Away, Monitor, AwayExitDelay and
AwayEntryDelay. -/
inductive BaseUnitState where
  | Disarm
  | Home
  | Away
  | Monitor
  | AwayExitDelay
  | AwayEntryDelay
deriving DecidableEq, Repr

/-- Modelled from the spec: numeric values of the base-unit state
enumeration members (an integer enumeration in the controller library);
only truthiness of these values is ever observed by the translator. -/
def BaseUnitState.code : BaseUnitState → Nat
  | .Disarm => 0
  | .Home => 1
  | .Away => 2
  | .Monitor => 8
  | .AwayExitDelay => 16
  | .AwayEntryDelay => 17

/-- Modelled from the spec: the operation-mode enumeration of the external
controller library (`lifesospy.enums.OperationMode`), whose member names
are the payloads accepted on the operation-mode set topic. -/
inductive OperationMode where
  | Disarm
  | Home
  | Away
  | Monitor
deriving DecidableEq, Repr

/-- Member name of an operation mode, as matched by name parsing. -/
def OperationMode.memberName : OperationMode → String
  | .Disarm => "Disarm"
  | .Home => "Home"
  | .Away => "Away"
  | .Monitor => "Monitor"

/-- Modelled from the spec: name-based enumeration parsing
(`OperationMode.parse_name`); yields the member with the given name, or
none when the name is absent or matches no member. -/
def OperationMode.parseName (name : Option String) : Option OperationMode :=
  match name with
  | none => none
  | some s =>
      [OperationMode.Disarm, OperationMode.Home,
       OperationMode.Away, OperationMode.Monitor].find?
        (fun m => m.memberName = s)

/-- Modelled from the spec: the contact-ID event qualifier enumeration
(`lifesospy.enums.ContactIDEventQualifier`); the translator dispatches on
Event and Restore. -/
inductive EventQualifier where
  | Event
  | Restore
  | Repeated
deriving DecidableEq, Repr

/-- Modelled from the spec: the contact-ID event category enumeration
(`lifesospy.enums.ContactIDEventCategory`); the translator only tests for
the Alarm category. -/
inductive EventCategory where
  | Alarm
  | Supervisory
  | Trouble
  | OpenCloseAccess
  | BypassDisable
  | TestMisc
deriving DecidableEq, Repr

/-- Modelled from the spec: the device event code enumeration
(`lifesospy.enums.DeviceEventCode`); the translator dispatches on
BatteryLow, PowerOnReset, Tamper and Trigger. -/
inductive DeviceEventCode where
  | Trigger
  | BatteryLow
  | PowerOnReset
  | Tamper
  | Heartbeat
  | OpenDoor
  | CloseDoor
deriving DecidableEq, Repr

/-- Modelled from the spec: the device type enumeration
(`lifesospy.enums.DeviceType`); discovery dispatches on SmokeDetector,
DoorMagnet and PIRSensor, all other types are unrepresentable. -/
inductive DeviceType where
  | DoorMagnet
  | PIRSensor
  | SmokeDetector
  | RemoteController
  | FloodDetector
deriving DecidableEq, Repr

/-- Modelled from the spec: the On/Off payload encoding
(`lifesospy_mqtt.enums.OnOff`, repository module outside the translator
source). -/
inductive OnOff where
  | On
  | Off
deriving DecidableEq, Repr

/-- Modelled from the spec: `OnOff.parse_value` maps a truthy value to On
and a falsy value to Off. -/
def OnOff.parse_value (b : Bool) : OnOff :=
  if b then OnOff.On else OnOff.Off

/-- Modelled from the spec: the Open/Closed payload encoding
(`lifesospy_mqtt.enums.OpenClosed`, repository module outside the
translator source). -/
inductive OpenClosed where
  | Open
  | Closed
deriving DecidableEq, Repr

/-- Modelled from the spec: `OpenClosed.parse_value` maps a truthy
is-closed value to Closed and a falsy one to Open. -/
def OpenClosed.parse_value (b : Bool) : OpenClosed :=
  if b then OpenClosed.Closed else OpenClosed.Open

/-- A dynamically-typed property value as handed to the translator
callbacks (`PropertyChangedInfo.new_value` is untyped in the source). The
constructors cover the value kinds the translator observes: absent
(Python None), a base-unit raw state, a boolean, an integer, a string, an
operation mode, and a device-category record (its dictionary form, which
`_publish_device_property` iterates). -/
inductive Value where
  | none
  | state (s : BaseUnitState)
  | bool (b : Bool)
  | nat (n : Nat)
  | str (s : String)
  | mode (m : OperationMode)
  | category (items : List (String × String))
deriving DecidableEq, Repr

/-- Python truthiness of a property value, as observed by the guards in
the translator source (`if value`, `cls.X if value else cls.Y`). Integer
enumeration members are truthy exactly when their numeric value is
nonzero. -/
def Value.truthy : Value → Bool
  | .none => false
  | .state s => s.code != 0
  | .bool b => b
  | .nat n => n != 0
  | .str s => s != ""
  | .mode m => (match m with | .Disarm => 0 | .Home => 1 | .Away => 2 | .Monitor => 8) != 0
  | .category items => items != []

/-- A JSON value, for the discovery configuration documents and the
base-unit event document the translator serialises with `json.dumps`. -/
inductive JsonVal where
  | str (s : String)
  | jbool (b : Bool)
  | jnull
  | obj (fields : List (String × JsonVal))
deriving Repr

/-- An MQTT publish payload, as the Python object handed to
`MQTTClient.publish`. -/
inductive Payload where
  | val (v : Value)
  | str (s : String)
  | onOff (o : OnOff)
  | openClosed (o : OpenClosed)
  | eventCode (c : DeviceEventCode)
  | pbool (b : Bool)
  | json (j : JsonVal)
deriving Repr

/-- One MQTT publish request: topic, payload, retained flag
(`Translator._publish`; QoS is the constant at-least-once level and is
omitted). -/
structure Publish where
  topic : String
  payload : Payload
  retain : Bool
deriving Repr

/-- The alarm-state strings required by Home Assistant
(`Translator.STATE_ARMED_AWAY` and friends). -/
def STATE_ARMED_AWAY : String := "armed_away"

def STATE_ARMED_HOME : String := "armed_home"

def STATE_DISARMED : String := "disarmed"

def STATE_PENDING : String := "pending"

def STATE_TRIGGERED : String := "triggered"

/-- Sub-topic for the Home-Assistant-recognisable alarm state
(`Translator.TOPIC_STATE`). -/
def TOPIC_STATE : String := "ha_state"

/-- Modelled from the spec: base-unit property-name constants of the
external controller library (`BaseUnit.PROP_STATE` and friends); the spec
fixes the allow-list names state, is_connected, rom_version, exit_delay,
entry_delay and operation_mode. -/
def PROP_STATE : String := "state"

def PROP_IS_CONNECTED : String := "is_connected"

def PROP_ROM_VERSION : String := "rom_version"

def PROP_EXIT_DELAY : String := "exit_delay"

def PROP_ENTRY_DELAY : String := "entry_delay"

def PROP_OPERATION_MODE : String := "operation_mode"

/-- The mutable translation state of the `Translator` instance: the last
known raw base-unit state (`self._state`, holds whatever value the state
property change delivered, initially Python None) and the last derived
hub-facing alarm state (`self._ha_state`, initially Python None). -/
structure TransState where
  state : Value
  haState : Option String
deriving DecidableEq, Repr

/-- The initial translation state set in `Translator.__init__`. -/
def TransState.init : TransState :=
  { state := Value.none, haState := Option.none }

/-- Embedding of `Translator._publish_baseunit_property` (translator.py
lines 470-500): given the base-unit topic, the current translation state
and a changed property name/value, returns the new translation state and
the publishes issued, in order. The state property stores the raw value,
publishes it retained at the base-unit topic itself, and derives the hub
alarm state; the other allow-listed properties publish retained at the
base topic followed by the property name. -/
def publish_baseunit_property (topicParent : String) (ts : TransState)
    (name : String) (value : Value) : TransState × List Publish :=
  if name = PROP_STATE then
    let ts1 : TransState := { ts with state := value }
    let p0 : Publish := { topic := topicParent, payload := Payload.val value, retain := true }
    let haTopic := topicParent ++ "/" ++ TOPIC_STATE
    if value = Value.state BaseUnitState.Disarm ∨ value = Value.state BaseUnitState.Monitor then
      ({ ts1 with haState := some STATE_DISARMED },
       [p0, { topic := haTopic, payload := Payload.str STATE_DISARMED, retain := true }])
    else if value = Value.state BaseUnitState.Home then
      ({ ts1 with haState := some STATE_ARMED_HOME },
       [p0, { topic := haTopic, payload := Payload.str STATE_ARMED_HOME, retain := true }])
    else if value = Value.state BaseUnitState.Away then
      ({ ts1 with haState := some STATE_ARMED_AWAY },
       [p0, { topic := haTopic, payload := Payload.str STATE_ARMED_AWAY, retain := true }])
    else if value = Value.state BaseUnitState.AwayExitDelay ∨
        value = Value.state BaseUnitState.AwayEntryDelay then
      ({ ts1 with haState := some STATE_PENDING },
       [p0, { topic := haTopic, payload := Payload.str STATE_PENDING, retain := true }])
    else
      (ts1, [p0])
  else if name = PROP_IS_CONNECTED ∨ name = PROP_ROM_VERSION ∨
      name = PROP_EXIT_DELAY ∨ name = PROP_ENTRY_DELAY ∨
      name = PROP_OPERATION_MODE then
    (ts, [{ topic := topicParent ++ "/" ++ name, payload := Payload.val value, retain := true }])
  else
    (ts, [])

/-- Feeding a sequence of raw base-unit state values through
`publish_baseunit_property`, threading the translation state and
concatenating the publishes in order. -/
def run_state_changes (topicParent : String) (ts : TransState) :
    List BaseUnitState → TransState × List Publish
  | [] => (ts, [])
  | s :: rest =>
      let r1 := publish_baseunit_property topicParent ts PROP_STATE (Value.state s)
      let r2 := run_state_changes topicParent r1.1 rest
      (r2.1, r1.2 ++ r2.2)

/-- The publishes of a list that target the derived hub-alarm-state topic,
projected to their payload string; used to observe the `ha_state` publish
stream. -/
def ha_state_stream (topicParent : String) (pubs : List Publish) : List (String × Bool) :=
  pubs.filterMap (fun p =>
    if p.topic = topicParent ++ "/" ++ TOPIC_STATE then
      match p.payload with
      | Payload.str s => some (s, p.retain)
      | _ => Option.none
    else Option.none)

/-- The hub alarm state the claim's table assigns to each raw base-unit
state: Disarm and Monitor map to disarmed, Home to armed_home, Away to
armed_away, AwayExitDelay and AwayEntryDelay to pending. -/
def claimed_ha_table : BaseUnitState → String
  | .Disarm => STATE_DISARMED
  | .Monitor => STATE_DISARMED
  | .Home => STATE_ARMED_HOME
  | .Away => STATE_ARMED_AWAY
  | .AwayExitDelay => STATE_PENDING
  | .AwayEntryDelay => STATE_PENDING

/-- Claim C1: every state-property change carrying a raw base-unit state
derives the hub alarm state exactly by the table (Disarm/Monitor to
disarmed, Home to armed_home, Away to armed_away, exit/entry delay to
pending) and publishes it retained at the ha_state sub-topic; a state
value outside the table (the unknown/None value) leaves the derived state
unchanged and produces no ha_state publish; and the raw sequence Disarm,
Home, AwayExitDelay produces exactly the retained ha_state publishes
disarmed, armed_home, pending, in that order. -/
theorem c1_ha_state_derivation (tp : String) (ts : TransState) :
    (∀ s : BaseUnitState,
      (publish_baseunit_property tp ts PROP_STATE (Value.state s)).1.haState
          = some (claimed_ha_table s) ∧
      (publish_baseunit_property tp ts PROP_STATE (Value.state s)).2
          = [{ topic := tp, payload := Payload.val (Value.state s), retain := true },
             { topic := tp ++ "/" ++ TOPIC_STATE,
               payload := Payload.str (claimed_ha_table s), retain := true }])
    ∧ ((publish_baseunit_property tp ts PROP_STATE Value.none).1.haState = ts.haState ∧
       (publish_baseunit_property tp ts PROP_STATE Value.none).2
          = [{ topic := tp, payload := Payload.val Value.none, retain := true }])
    ∧ ha_state_stream "home/alarm"
        (run_state_changes "home/alarm" TransState.init
          [BaseUnitState.Disarm, BaseUnitState.Home, BaseUnitState.AwayExitDelay]).2
        = [(STATE_DISARMED, true), (STATE_ARMED_HOME, true), (STATE_PENDING, true)] := by
  refine ⟨fun s => ?_, ⟨?_, ?_⟩, ?_⟩
  · cases s <;>
      simp [publish_baseunit_property, claimed_ha_table, PROP_STATE, TOPIC_STATE,
        STATE_DISARMED, STATE_ARMED_HOME, STATE_ARMED_AWAY, STATE_PENDING]
  · simp [publish_baseunit_property, PROP_STATE]
  · simp [publish_baseunit_property, PROP_STATE]
  · decide

/-- Claim C7 counterexample: for the allow-listed property name state with
raw value Disarm and base topic home/alarm, no publish at all targets
home/alarm/state (the base topic followed by the property name); the raw
state value is published at the base topic itself instead, so the claim
as stated fails at this input. -/
theorem c7_counterexample :
    ((publish_baseunit_property "home/alarm" TransState.init PROP_STATE
        (Value.state BaseUnitState.Disarm)).2.all
      (fun p => p.topic != "home/alarm/state")) = true := by
  decide

/-- Claim C7 (amended): for each of the allow-listed properties
is_connected, rom_version, exit_delay, entry_delay and operation_mode the
new value is published retained at the base topic followed by the
property name; the state property publishes its raw value retained at the
base topic itself (its first publish); and a property outside the
allow-list produces no publish. -/
theorem c7_baseunit_property_topics (tp : String) (ts : TransState) (v : Value) :
    (∀ name, (name = PROP_IS_CONNECTED ∨ name = PROP_ROM_VERSION ∨
        name = PROP_EXIT_DELAY ∨ name = PROP_ENTRY_DELAY ∨
        name = PROP_OPERATION_MODE) →
      (publish_baseunit_property tp ts name v).2
        = [{ topic := tp ++ "/" ++ name, payload := Payload.val v, retain := true }])
    ∧ ((publish_baseunit_property tp ts PROP_STATE v).2.head? =
        some { topic := tp, payload := Payload.val v, retain := true })
    ∧ (∀ name, name ≠ PROP_STATE → name ≠ PROP_IS_CONNECTED →
        name ≠ PROP_ROM_VERSION → name ≠ PROP_EXIT_DELAY →
        name ≠ PROP_ENTRY_DELAY → name ≠ PROP_OPERATION_MODE →
      (publish_baseunit_property tp ts name v).2 = []) := by
  refine ⟨fun name h => ?_, ?_, fun name h1 h2 h3 h4 h5 h6 => ?_⟩
  · have hne : name ≠ PROP_STATE := by
      rcases h with h | h | h | h | h <;> subst h <;> decide
    rcases h with h | h | h | h | h <;> subst h <;>
      simp [publish_baseunit_property, PROP_STATE, PROP_IS_CONNECTED, PROP_ROM_VERSION,
        PROP_EXIT_DELAY, PROP_ENTRY_DELAY, PROP_OPERATION_MODE]
  · by_cases h1 : v = Value.state BaseUnitState.Disarm ∨ v = Value.state BaseUnitState.Monitor <;>
    by_cases h2 : v = Value.state BaseUnitState.Home <;>
    by_cases h3 : v = Value.state BaseUnitState.Away <;>
    by_cases h4 : v = Value.state BaseUnitState.AwayExitDelay ∨
        v = Value.state BaseUnitState.AwayEntryDelay <;>
      simp [publish_baseunit_property, PROP_STATE, h1, h2, h3, h4]
  · simp [publish_baseunit_property, h1, h2, h3, h4, h5, h6]

/-- Claim C7 witness: instantiating the amended claim at concrete inputs
and discharging each hypothesis. -/
theorem c7_baseunit_property_topics_witness :
    (publish_baseunit_property "home/alarm" TransState.init PROP_ROM_VERSION
        (Value.str "v1")).2
      = [{ topic := "home/alarm" ++ "/" ++ PROP_ROM_VERSION,
           payload := Payload.val (Value.str "v1"), retain := true }]
    ∧ (publish_baseunit_property "home/alarm" TransState.init "unknown_prop"
        (Value.str "v1")).2 = [] :=
  ⟨(c7_baseunit_property_topics "home/alarm" TransState.init (Value.str "v1")).1
      PROP_ROM_VERSION (Or.inr (Or.inl rfl)),
   (c7_baseunit_property_topics "home/alarm" TransState.init
      (Value.str "v1")).2.2 "unknown_prop"
      (by decide) (by decide) (by decide) (by decide) (by decide) (by decide)⟩

/-- A contact-ID event notification from the base unit
(`lifesospy.contactid.ContactID` as observed by `_baseunit_event`): its
event qualifier, event category and optional event code. The code is an
integer enumeration member; Python truthiness of the code (nonzero) gates
the event-code/restore-code publishes. -/
structure ContactIdEvent where
  eventQualifier : EventQualifier
  eventCategory : EventCategory
  eventCode : Option Nat
deriving DecidableEq, Repr

/-- Truthiness of `contact_id.event_code`: present and nonzero. -/
def ContactIdEvent.codeTruthy (c : ContactIdEvent) : Bool :=
  match c.eventCode with
  | some n => n != 0
  | none => false

/-- Modelled from the spec: the JSON document for the event
(`contact_id.as_dict()` of the external controller library, serialised
with `json.dumps`); the document's exact fields are owned by that library,
so only the fields the spec mentions are carried. -/
def contact_id_json (c : ContactIdEvent) : JsonVal :=
  JsonVal.obj
    [("event_qualifier", JsonVal.str (match c.eventQualifier with
        | .Event => "Event" | .Restore => "Restore" | .Repeated => "Repeated")),
     ("event_category", JsonVal.str (match c.eventCategory with
        | .Alarm => "Alarm" | .Supervisory => "Supervisory" | .Trouble => "Trouble"
        | .OpenCloseAccess => "OpenCloseAccess" | .BypassDisable => "BypassDisable"
        | .TestMisc => "TestMisc")),
     ("event_code", match c.eventCode with
        | some n => JsonVal.str (toString n) | none => JsonVal.jnull)]

/-- Embedding of `Translator._baseunit_event` (translator.py lines
384-414): publishes the event JSON (not retained), then the event or
restore code when the code is truthy, and for an Event-qualifier
Alarm-category event forces the derived hub state to triggered and
publishes it retained at the ha_state sub-topic. -/
def baseunit_event (topicParent : String) (ts : TransState)
    (c : ContactIdEvent) : TransState × List Publish :=
  let pubs : List Publish :=
    [{ topic := topicParent ++ "/event", payload := Payload.json (contact_id_json c),
       retain := false }]
  let pubs := pubs ++
    (if c.codeTruthy then
      if c.eventQualifier = EventQualifier.Event then
        [{ topic := topicParent ++ "/event_code",
           payload := Payload.val (Value.nat (c.eventCode.getD 0)), retain := false }]
      else if c.eventQualifier = EventQualifier.Restore then
        [{ topic := topicParent ++ "/restore_code",
           payload := Payload.val (Value.nat (c.eventCode.getD 0)), retain := false }]
      else []
    else [])
  if c.eventQualifier = EventQualifier.Event ∧ c.eventCategory = EventCategory.Alarm then
    ({ ts with haState := some STATE_TRIGGERED },
     pubs ++ [{ topic := topicParent ++ "/" ++ TOPIC_STATE,
                payload := Payload.str STATE_TRIGGERED, retain := true }])
  else
    (ts, pubs)

/-- Claim C2: for every base-unit event with qualifier Event and category
Alarm, the derived hub alarm state is set to triggered and a retained
publish of triggered is issued at the ha_state sub-topic, for every
current translation state (in particular regardless of the raw base-unit
state) and with no state-change notification involved. -/
theorem c2_alarm_event_triggers (tp : String) (ts : TransState) (c : ContactIdEvent)
    (hq : c.eventQualifier = EventQualifier.Event)
    (hc : c.eventCategory = EventCategory.Alarm) :
    (baseunit_event tp ts c).1.haState = some STATE_TRIGGERED ∧
    (baseunit_event tp ts c).1.state = ts.state ∧
    { topic := tp ++ "/" ++ TOPIC_STATE,
      payload := Payload.str STATE_TRIGGERED, retain := true } ∈ (baseunit_event tp ts c).2 := by
  refine ⟨?_, ?_, ?_⟩ <;> simp [baseunit_event, hq, hc]

/-- Claim C2 witness: the theorem at a concrete alarm event while the raw
base-unit state is Away. -/
theorem c2_alarm_event_triggers_witness :
    (baseunit_event "home/alarm"
      { state := Value.state BaseUnitState.Away, haState := some STATE_ARMED_AWAY }
      { eventQualifier := EventQualifier.Event, eventCategory := EventCategory.Alarm,
        eventCode := some 130 }).1.haState = some STATE_TRIGGERED ∧
    (baseunit_event "home/alarm"
      { state := Value.state BaseUnitState.Away, haState := some STATE_ARMED_AWAY }
      { eventQualifier := EventQualifier.Event, eventCategory := EventCategory.Alarm,
        eventCode := some 130 }).1.state = Value.state BaseUnitState.Away ∧
    { topic := "home/alarm" ++ "/" ++ TOPIC_STATE,
      payload := Payload.str STATE_TRIGGERED, retain := true } ∈
      (baseunit_event "home/alarm"
        { state := Value.state BaseUnitState.Away, haState := some STATE_ARMED_AWAY }
        { eventQualifier := EventQualifier.Event, eventCategory := EventCategory.Alarm,
          eventCode := some 130 }).2 :=
  c2_alarm_event_triggers "home/alarm"
    { state := Value.state BaseUnitState.Away, haState := some STATE_ARMED_AWAY }
    { eventQualifier := EventQualifier.Event, eventCategory := EventCategory.Alarm,
      eventCode := some 130 } rfl rfl

/-- An effect of handling an inbound operation-mode set message: either an
MQTT publish or a scheduled base-unit command
(`self._loop.create_task(self._baseunit.async_set_operation_mode(...))`). -/
inductive MqttEffect where
  | pub (p : Publish)
  | cmdSetOperationMode (m : OperationMode)
deriving Repr

/-- Result of `Translator._on_message_baseunit`: the new translation
state, the effects in issue order, and whether the cannot-set warning was
logged. -/
structure BaseunitMessageResult where
  ts : TransState
  actions : List MqttEffect
  warned : Bool
deriving Repr

/-- Embedding of `Translator._on_message_baseunit` (translator.py lines
733-760): for the operation-mode subscription argument, decodes the
payload (an empty payload decodes to the absent name), parses it as an
operation-mode name, warns and stops on failure, applies the special
disarm-while-triggered reset, and schedules the set-operation-mode
command; any other subscription argument raises NotImplementedError,
modelled as the error branch. -/
def on_message_baseunit (topicParent : String) (args : String)
    (ts : TransState) (payload : String) : Except Unit BaseunitMessageResult :=
  if args = PROP_OPERATION_MODE then
    let name : Option String := if payload = "" then Option.none else some payload
    match OperationMode.parseName name with
    | Option.none => Except.ok { ts := ts, actions := [], warned := true }
    | some m =>
        if m = OperationMode.Disarm ∧ ts.state = Value.state BaseUnitState.Disarm ∧
            ts.haState = some STATE_TRIGGERED then
          let ts1 : TransState := { ts with haState := some STATE_DISARMED }
          Except.ok
            { ts := ts1,
              actions :=
                [MqttEffect.pub { topic := topicParent ++ "/" ++ TOPIC_STATE,
                                  payload := Payload.str STATE_DISARMED, retain := true },
                 MqttEffect.cmdSetOperationMode m],
              warned := false }
        else
          Except.ok { ts := ts, actions := [MqttEffect.cmdSetOperationMode m], warned := false }
  else
    Except.error ()

/-- Claim C3: when the payload parses to Disarm while the last raw
base-unit state is Disarm and the derived hub state is triggered, the
handler first publishes disarmed retained at the ha_state sub-topic and
then schedules the set-operation-mode command; in every other parseable
case the handler only schedules the command, with no publish. -/
theorem c3_disarm_while_triggered (tp : String) (ts : TransState) (payload : String) :
    (OperationMode.parseName (if payload = "" then Option.none else some payload)
        = some OperationMode.Disarm →
      ts.state = Value.state BaseUnitState.Disarm →
      ts.haState = some STATE_TRIGGERED →
      on_message_baseunit tp PROP_OPERATION_MODE ts payload
        = Except.ok
            { ts := { ts with haState := some STATE_DISARMED },
              actions :=
                [MqttEffect.pub { topic := tp ++ "/" ++ TOPIC_STATE,
                                  payload := Payload.str STATE_DISARMED, retain := true },
                 MqttEffect.cmdSetOperationMode OperationMode.Disarm],
              warned := false })
    ∧ (∀ m : OperationMode,
        OperationMode.parseName (if payload = "" then Option.none else some payload)
          = some m →
        ¬ (m = OperationMode.Disarm ∧ ts.state = Value.state BaseUnitState.Disarm ∧
            ts.haState = some STATE_TRIGGERED) →
        on_message_baseunit tp PROP_OPERATION_MODE ts payload
          = Except.ok { ts := ts, actions := [MqttEffect.cmdSetOperationMode m],
                        warned := false }) := by
  constructor
  · intro hp hs hh
    simp [on_message_baseunit, hp, hs, hh]
  · intro m hp hn
    simp [on_message_baseunit, hp, hn]

/-- Claim C3 witness: the theorem at the concrete triggered-while-disarmed
state with payload Disarm, and at the ordinary state with payload Away. -/
theorem c3_disarm_while_triggered_witness :
    (on_message_baseunit "home/alarm" PROP_OPERATION_MODE
        { state := Value.state BaseUnitState.Disarm, haState := some STATE_TRIGGERED }
        "Disarm"
      = Except.ok
          { ts := { state := Value.state BaseUnitState.Disarm,
                    haState := some STATE_DISARMED },
            actions :=
              [MqttEffect.pub { topic := "home/alarm" ++ "/" ++ TOPIC_STATE,
                                payload := Payload.str STATE_DISARMED, retain := true },
               MqttEffect.cmdSetOperationMode OperationMode.Disarm],
            warned := false })
    ∧ (on_message_baseunit "home/alarm" PROP_OPERATION_MODE
        { state := Value.state BaseUnitState.Disarm, haState := some STATE_DISARMED }
        "Away"
      = Except.ok
          { ts := { state := Value.state BaseUnitState.Disarm,
                    haState := some STATE_DISARMED },
            actions := [MqttEffect.cmdSetOperationMode OperationMode.Away],
            warned := false }) :=
  ⟨(c3_disarm_while_triggered "home/alarm"
      { state := Value.state BaseUnitState.Disarm, haState := some STATE_TRIGGERED }
      "Disarm").1 (by decide) rfl rfl,
   (c3_disarm_while_triggered "home/alarm"
      { state := Value.state BaseUnitState.Disarm, haState := some STATE_DISARMED }
      "Away").2 OperationMode.Away (by decide) (by decide)⟩

/-- Claim C9: when the payload of an inbound operation-mode set message
does not parse to a named operation mode (including the empty payload),
the handler logs the warning and returns normally: no command is
scheduled, no publish is issued and no error escapes. -/
theorem c9_unparseable_payload_ignored (tp : String) (ts : TransState) (payload : String)
    (hp : OperationMode.parseName
        (if payload = "" then Option.none else some payload) = Option.none) :
    on_message_baseunit tp PROP_OPERATION_MODE ts payload
      = Except.ok { ts := ts, actions := [], warned := true } := by
  simp [on_message_baseunit, hp]

/-- Claim C9 witness: the theorem at the unparseable payload bogus and at
the empty payload. -/
theorem c9_unparseable_payload_ignored_witness :
    (on_message_baseunit "home/alarm" PROP_OPERATION_MODE TransState.init "bogus"
      = Except.ok { ts := TransState.init, actions := [], warned := true })
    ∧ (on_message_baseunit "home/alarm" PROP_OPERATION_MODE TransState.init ""
      = Except.ok { ts := TransState.init, actions := [], warned := true }) :=
  ⟨c9_unparseable_payload_ignored "home/alarm" TransState.init "bogus" (by decide),
   c9_unparseable_payload_ignored "home/alarm" TransState.init "" (by decide)⟩

/-- Per-device translator configuration
(`config.TranslatorDeviceConfig`): its topic, optional auto-reset
interval in seconds, and optional discovery device-info block. -/
structure TranslatorDeviceConfig where
  topic : String
  auto_reset_interval : Option Nat
  device_info : List (String × String)
deriving DecidableEq, Repr

/-- Lookup of a device id in the configured-devices table
(`self._config.translator.devices.get(device_id)`). -/
def devices_get (devices : List (Nat × TranslatorDeviceConfig)) (deviceId : Nat) :
    Option TranslatorDeviceConfig :=
  (devices.find? (fun p => p.1 == deviceId)).map (fun p => p.2)

/-- Default interval before resetting a Trigger device state to Off
(`Translator.AUTO_RESET_INTERVAL`). -/
def AUTO_RESET_INTERVAL : Nat := 30

/-- The interval used when arming the auto-reset timer:
`device_config.auto_reset_interval or Translator.AUTO_RESET_INTERVAL`, so
an absent or zero (falsy) configured interval falls back to the
default. -/
def effective_auto_reset_interval (dc : TranslatorDeviceConfig) : Nat :=
  match dc.auto_reset_interval with
  | some n => if n != 0 then n else AUTO_RESET_INTERVAL
  | none => AUTO_RESET_INTERVAL

/-- A timer handle created by `loop.call_later`: its creation id, the
device whose reset it will perform, its absolute fire time, and whether
`cancel()` has been called on it. A fired timer is also marked cancelled
by the event-loop model so that it cannot fire twice. -/
structure TimerHandle where
  tid : Nat
  device : Nat
  fireAt : Nat
  cancelled : Bool
deriving DecidableEq, Repr

/-- The auto-reset bookkeeping of the translator together with the event
loop's view of the timers it created: a fresh-id counter, every timer
handle ever created, and the `self._auto_reset_handles` dictionary mapping
a device id to the id of its recorded timer handle. -/
structure SchedState where
  nextId : Nat
  timers : List TimerHandle
  handles : List (Nat × Nat)
deriving DecidableEq, Repr

/-- The empty scheduler state of a freshly constructed translator. -/
def SchedState.init : SchedState :=
  { nextId := 0, timers := [], handles := [] }

/-- Dictionary lookup `self._auto_reset_handles.get(device_id)`. -/
def lookup_handle (hs : List (Nat × Nat)) (deviceId : Nat) : Option Nat :=
  (hs.find? (fun p => p.1 == deviceId)).map (fun p => p.2)

/-- Dictionary assignment `self._auto_reset_handles[device_id] = handle`.
Only the key-to-id mapping and key uniqueness of the dictionary are ever
observed, so the entry is re-inserted at the end. -/
def set_handle (hs : List (Nat × Nat)) (deviceId tid : Nat) : List (Nat × Nat) :=
  hs.filter (fun p => p.1 != deviceId) ++ [(deviceId, tid)]

/-- Dictionary removal `self._auto_reset_handles.pop(device_id)`, which
raises KeyError (modelled as none) when the key is absent. -/
def pop_handle (hs : List (Nat × Nat)) (deviceId : Nat) :
    Option (List (Nat × Nat)) :=
  match hs.find? (fun p => p.1 == deviceId) with
  | some _ => some (hs.filter (fun p => p.1 != deviceId))
  | Option.none => Option.none

/-- `handle.cancel()`: marks the timer with the given id cancelled. -/
def cancel_timer (timers : List TimerHandle) (tid : Nat) : List TimerHandle :=
  timers.map (fun t => if t.tid == tid then { t with cancelled := true } else t)

/-- Embedding of `Translator._device_on_event` (translator.py lines
430-453): for a configured device with a truthy topic, publishes the
event code (not retained), a retained battery sub-topic for BatteryLow
and PowerOnReset, a non-retained tamper sub-topic for Tamper, and for
Trigger publishes On retained at the device topic, cancels any existing
auto-reset handle for the device, then installs and records a new timer
firing after the effective auto-reset interval. -/
def device_on_event (devices : List (Nat × TranslatorDeviceConfig))
    (s : SchedState) (now : Nat) (deviceId : Nat) (event_code : DeviceEventCode) :
    SchedState × List Publish :=
  match devices_get devices deviceId with
  | some dc =>
    if dc.topic != "" then
      let pubs : List Publish :=
        [{ topic := dc.topic ++ "/event_code", payload := Payload.eventCode event_code,
           retain := false }]
      let pubs := pubs ++
        (if event_code = DeviceEventCode.BatteryLow ∨
            event_code = DeviceEventCode.PowerOnReset then
          [{ topic := dc.topic ++ "/battery", payload := Payload.eventCode event_code,
             retain := true }]
        else [])
      let pubs := pubs ++
        (if event_code = DeviceEventCode.Tamper then
          [{ topic := dc.topic ++ "/tamper", payload := Payload.pbool true, retain := false }]
        else [])
      if event_code = DeviceEventCode.Trigger then
        let pubs := pubs ++
          [{ topic := dc.topic, payload := Payload.onOff (OnOff.parse_value true),
             retain := true }]
        let s1 :=
          match lookup_handle s.handles deviceId with
          | some tid => { s with timers := cancel_timer s.timers tid }
          | Option.none => s
        let newTimer : TimerHandle :=
          { tid := s1.nextId, device := deviceId,
            fireAt := now + effective_auto_reset_interval dc, cancelled := false }
        ({ nextId := s1.nextId + 1, timers := s1.timers ++ [newTimer],
           handles := set_handle s1.handles deviceId s1.nextId }, pubs)
      else (s, pubs)
    else (s, [])
  | Option.none => (s, [])

/-- Embedding of `Translator._auto_reset` (translator.py lines 455-460):
publishes Off retained at the device topic when the device is configured
with a truthy topic, then removes the device's auto-reset handle (a
missing handle raises KeyError, modelled as the none result; in the
source the publish precedes the error, but the event loop only ever fires
a recorded handle). -/
def auto_reset (devices : List (Nat × TranslatorDeviceConfig))
    (s : SchedState) (deviceId : Nat) : Option (SchedState × List Publish) :=
  let pubs : List Publish :=
    match devices_get devices deviceId with
    | some dc =>
        if dc.topic != "" then
          [{ topic := dc.topic, payload := Payload.onOff (OnOff.parse_value false),
             retain := true }]
        else []
    | Option.none => []
  match pop_handle s.handles deviceId with
  | some hs1 => some ({ s with handles := hs1 }, pubs)
  | Option.none => Option.none

/-- The event loop's choice of the next timer to fire at or before the
given time: the earliest-deadline non-cancelled timer, ties resolved by
creation order. -/
def next_due_timer (s : SchedState) (t : Nat) : Option TimerHandle :=
  (s.timers.filter (fun tm => !tm.cancelled && decide (tm.fireAt ≤ t))).foldl
    (fun acc tm =>
      match acc with
      | Option.none => some tm
      | some best => if tm.fireAt < best.fireAt then some tm else some best)
    Option.none

/-- The event loop firing one timer: the timer is marked spent (so it
cannot fire again) and its `_auto_reset` callback runs. -/
def fire_timer (devices : List (Nat × TranslatorDeviceConfig))
    (s : SchedState) (tm : TimerHandle) : Option (SchedState × List Publish) :=
  auto_reset devices { s with timers := cancel_timer s.timers tm.tid } tm.device

/-- The event loop running until the given time: repeatedly fires the next
due timer, accumulating the publishes in fire order. The fuel bounds the
number of firings; each firing spends a live timer, so the number of
timers is always sufficient fuel. -/
def run_until (devices : List (Nat × TranslatorDeviceConfig)) :
    Nat → SchedState → Nat → SchedState × List Publish
  | 0, s, _ => (s, [])
  | fuel + 1, s, t =>
      match next_due_timer s t with
      | Option.none => (s, [])
      | some tm =>
          match fire_timer devices s tm with
          | Option.none => (s, [])
          | some (s1, p1) =>
              let r := run_until devices fuel s1 t
              (r.1, p1 ++ r.2)

/-- Embedding of the auto-reset portion of `Translator.async_stop`
(translator.py lines 280-283): every recorded handle is cancelled and
every entry is removed from the handle dictionary. -/
def async_stop_auto_reset (s : SchedState) : SchedState :=
  { s with
    timers := s.timers.map (fun t =>
      if s.handles.any (fun h => h.2 == t.tid) then { t with cancelled := true } else t),
    handles := [] }

theorem find?_filter_ne_none (hs : List (Nat × Nat)) (d : Nat) :
    (hs.filter (fun p => p.1 != d)).find? (fun p => p.1 == d) = Option.none := by
  rw [List.find?_eq_none]
  intro p hp
  have h2 := (List.mem_filter.mp hp).2
  simp only [bne_iff_ne, ne_eq, decide_not] at h2
  simp only [beq_iff_eq]
  intro hc
  exact absurd hc (by simpa using h2)

theorem lookup_set_handle (hs : List (Nat × Nat)) (d tid : Nat) :
    lookup_handle (set_handle hs d tid) d = some tid := by
  unfold lookup_handle set_handle
  rw [List.find?_append, find?_filter_ne_none]
  simp [List.find?]

theorem set_handle_keys_nodup (hs : List (Nat × Nat)) (d tid : Nat)
    (h : (hs.map Prod.fst).Nodup) :
    ((set_handle hs d tid).map Prod.fst).Nodup := by
  unfold set_handle
  rw [List.map_append, List.nodup_append]
  refine ⟨h.sublist ((List.filter_sublist hs).map Prod.fst), by simp, ?_⟩
  intro x hx
  rcases List.mem_map.mp hx with ⟨p, hp, rfl⟩
  have h2 := (List.mem_filter.mp hp).2
  simp only [List.map_cons, List.map_nil, List.mem_singleton]
  intro hc
  rw [hc] at h2
  simp at h2

theorem cancel_timer_mem (timers : List TimerHandle) (tid : Nat) (t : TimerHandle)
    (ht : t ∈ cancel_timer timers tid) (htid : t.tid = tid) : t.cancelled = true := by
  rcases List.mem_map.mp ht with ⟨t0, _, rfl⟩
  by_cases h0 : t0.tid = tid
  · simp [h0]
  · rw [if_neg (by simpa using h0)] at htid ⊢
    exact absurd htid h0

theorem lookup_handle_mem (hs : List (Nat × Nat)) (d tid : Nat)
    (h : lookup_handle hs d = some tid) : (d, tid) ∈ hs := by
  unfold lookup_handle at h
  cases hf : hs.find? (fun p => p.1 == d) with
  | none => rw [hf] at h; simp at h
  | some p =>
      rw [hf] at h
      simp only [Option.map] at h
      have h := Option.some.inj h
      have hmem := List.mem_of_find?_eq_some hf
      have hpd := List.find?_some hf
      simp only [beq_iff_eq] at hpd
      have : p = (d, tid) := Prod.ext hpd h
      rw [this] at hmem
      exact hmem

theorem scheduler_nodup_preserved (devices : List (Nat × TranslatorDeviceConfig)) (s : SchedState)
    (now deviceId : Nat) (code : DeviceEventCode)
    (h : (s.handles.map Prod.fst).Nodup) :
    (((device_on_event devices s now deviceId code).1).handles.map Prod.fst).Nodup := by
  unfold device_on_event
  cases hdc : devices_get devices deviceId with
  | none => simpa using h
  | some dc =>
      by_cases ht : (dc.topic != "") = true
      · simp only [ht, if_true]
        by_cases hc : code = DeviceEventCode.Trigger
        · subst hc
          simp only [if_pos rfl]
          cases hl : lookup_handle s.handles deviceId <;>
            · simp only [hl]
              exact set_handle_keys_nodup _ _ _ h
        · simp only [hc, if_false]
          exact h
      · simp only [ht, if_false]  -- hmm Bool false
        exact h

theorem scheduler_trigger_shape (devices : List (Nat × TranslatorDeviceConfig)) (s : SchedState)
    (now deviceId : Nat) (dc : TranslatorDeviceConfig)
    (hdc : devices_get devices deviceId = some dc) (ht : dc.topic ≠ "")
    (hfresh : ∀ h ∈ s.handles, h.2 < s.nextId) :
    lookup_handle (device_on_event devices s now deviceId DeviceEventCode.Trigger).1.handles
        deviceId = some s.nextId
    ∧ ({ tid := s.nextId, device := deviceId,
         fireAt := now + effective_auto_reset_interval dc, cancelled := false } : TimerHandle)
        ∈ (device_on_event devices s now deviceId DeviceEventCode.Trigger).1.timers
    ∧ (∀ tid, lookup_handle s.handles deviceId = some tid →
        ∀ t ∈ (device_on_event devices s now deviceId DeviceEventCode.Trigger).1.timers,
          t.tid = tid → t.cancelled = true)
    ∧ (device_on_event devices s now deviceId DeviceEventCode.Trigger).2
        = [{ topic := dc.topic ++ "/event_code",
             payload := Payload.eventCode DeviceEventCode.Trigger, retain := false },
           { topic := dc.topic, payload := Payload.onOff (OnOff.parse_value true),
             retain := true }] := by
  have htb : (dc.topic != "") = true := by simpa using ht
  cases hl : lookup_handle s.handles deviceId with
  | none =>
      refine ⟨?_, ?_, ?_, ?_⟩
      · simp only [device_on_event, hdc, htb, if_true, hl]
        exact lookup_set_handle _ _ _
      · simp [device_on_event, hdc, htb, hl]
      · intro tid htid
        exact absurd htid (by simp)
      · simp [device_on_event, hdc, htb, hl]
  | some tid0 =>
      refine ⟨?_, ?_, ?_, ?_⟩
      · simp only [device_on_event, hdc, htb, if_true, hl]
        exact lookup_set_handle _ _ _
      · simp [device_on_event, hdc, htb, hl]
      · intro tid htid t htm heq
        have htid0 : tid = tid0 := (Option.some.inj htid).symm
        subst htid0
        simp only [device_on_event, hdc, htb, if_true, hl] at htm
        simp only [List.mem_append, List.mem_singleton] at htm
        rcases htm with htm | htm
        · exact cancel_timer_mem s.timers tid t htm heq
        · exfalso
          have hmem := lookup_handle_mem s.handles deviceId tid hl
          have hlt := hfresh (deviceId, tid) hmem
          rw [htm] at heq
          simp only at heq
          omega
      · simp [device_on_event, hdc, htb, hl]

theorem scheduler_fire_shape (devices : List (Nat × TranslatorDeviceConfig)) (s : SchedState)
    (deviceId : Nat) (dc : TranslatorDeviceConfig) (tid : Nat)
    (hdc : devices_get devices deviceId = some dc) (ht : dc.topic ≠ "")
    (hl : lookup_handle s.handles deviceId = some tid) :
    auto_reset devices s deviceId
      = some ({ s with handles := s.handles.filter (fun p => p.1 != deviceId) },
              [{ topic := dc.topic, payload := Payload.onOff OnOff.Off, retain := true }])
    ∧ lookup_handle (s.handles.filter (fun p => p.1 != deviceId)) deviceId = Option.none := by
  have htb : (dc.topic != "") = true := by simpa using ht
  constructor
  · have hfind : (s.handles.find? (fun p => p.1 == deviceId)).isSome = true := by
      unfold lookup_handle at hl
      cases hf : s.handles.find? (fun p => p.1 == deviceId) with
      | none => rw [hf] at hl; simp at hl
      | some p => simp
    unfold auto_reset pop_handle
    rw [hdc]
    cases hf : s.handles.find? (fun p => p.1 == deviceId) with
    | none => rw [hf] at hfind; simp at hfind
    | some p => simp [htb, OnOff.parse_value]
  · unfold lookup_handle
    rw [find?_filter_ne_none]
    rfl

theorem scheduler_stop_shape (s : SchedState) :
    (async_stop_auto_reset s).handles = []
    ∧ ∀ t ∈ (async_stop_auto_reset s).timers,
        (∃ h ∈ s.handles, h.2 = t.tid) → t.cancelled = true := by
  constructor
  · rfl
  · intro t htm hex
    unfold async_stop_auto_reset at htm
    simp only at htm
    rcases List.mem_map.mp htm with ⟨t0, _, rfl⟩
    by_cases ha : s.handles.any (fun h => h.2 == t0.tid) = true
    · rw [if_pos ha]
    · rw [if_neg ha] at hex ⊢
      exfalso
      apply ha
      rw [List.any_eq_true]
      rcases hex with ⟨h, hh, he⟩
      exact ⟨h, hh, by simpa using he⟩

/-- A concrete device table for the repeated-trigger scenario: device 7
with a topic and a configured auto-reset interval of 100 seconds. -/
def demo_devices : List (Nat × TranslatorDeviceConfig) :=
  [(7, { topic := "home/lounge/motion", auto_reset_interval := some 100,
         device_info := [] })]

/-- First Trigger event for device 7 at time 0. -/
def demo_first_trigger : SchedState × List Publish :=
  device_on_event demo_devices SchedState.init 0 7 DeviceEventCode.Trigger

/-- Second Trigger event for device 7 at time 40, within the 100-second
interval of the first arm. -/
def demo_second_trigger : SchedState × List Publish :=
  device_on_event demo_devices demo_first_trigger.1 40 7 DeviceEventCode.Trigger

/-- Claim C4: the auto-reset table holds at most one entry per device id
(uniqueness of the keys is preserved by every Trigger event); a Trigger
event records the fresh timer for the device and cancels every timer the
device's previous handle pointed to, before the new one is installed;
firing publishes Off retained at the device topic and removes the
device's entry; shutdown removes every entry and cancels every recorded
timer; and arming device 7 at time 0 and again at time 40 with a
100-second interval produces no Off publish up to time 139 and exactly
one Off publish by time 140, timed from the second arm, leaving no
entry. -/
theorem c4_auto_reset_discipline :
    (∀ (devices : List (Nat × TranslatorDeviceConfig)) (s : SchedState)
        (now deviceId : Nat) (code : DeviceEventCode),
      (s.handles.map Prod.fst).Nodup →
      (((device_on_event devices s now deviceId code).1).handles.map Prod.fst).Nodup)
    ∧ (∀ (devices : List (Nat × TranslatorDeviceConfig)) (s : SchedState)
        (now deviceId : Nat) (dc : TranslatorDeviceConfig),
      devices_get devices deviceId = some dc → dc.topic ≠ "" →
      (∀ h ∈ s.handles, h.2 < s.nextId) →
      lookup_handle (device_on_event devices s now deviceId DeviceEventCode.Trigger).1.handles
          deviceId = some s.nextId
      ∧ ({ tid := s.nextId, device := deviceId,
           fireAt := now + effective_auto_reset_interval dc, cancelled := false } : TimerHandle)
          ∈ (device_on_event devices s now deviceId DeviceEventCode.Trigger).1.timers
      ∧ (∀ tid, lookup_handle s.handles deviceId = some tid →
          ∀ t ∈ (device_on_event devices s now deviceId DeviceEventCode.Trigger).1.timers,
            t.tid = tid → t.cancelled = true)
      ∧ (device_on_event devices s now deviceId DeviceEventCode.Trigger).2
          = [{ topic := dc.topic ++ "/event_code",
               payload := Payload.eventCode DeviceEventCode.Trigger, retain := false },
             { topic := dc.topic, payload := Payload.onOff (OnOff.parse_value true),
               retain := true }])
    ∧ (∀ (devices : List (Nat × TranslatorDeviceConfig)) (s : SchedState)
        (deviceId : Nat) (dc : TranslatorDeviceConfig) (tid : Nat),
      devices_get devices deviceId = some dc → dc.topic ≠ "" →
      lookup_handle s.handles deviceId = some tid →
      auto_reset devices s deviceId
        = some ({ s with handles := s.handles.filter (fun p => p.1 != deviceId) },
                [{ topic := dc.topic, payload := Payload.onOff OnOff.Off, retain := true }])
      ∧ lookup_handle (s.handles.filter (fun p => p.1 != deviceId)) deviceId = Option.none)
    ∧ (∀ s : SchedState,
      (async_stop_auto_reset s).handles = []
      ∧ ∀ t ∈ (async_stop_auto_reset s).timers,
          (∃ h ∈ s.handles, h.2 = t.tid) → t.cancelled = true)
    ∧ (run_until demo_devices demo_second_trigger.1.timers.length
        demo_second_trigger.1 139).2 = []
    ∧ (run_until demo_devices demo_second_trigger.1.timers.length
        demo_second_trigger.1 140).2
        = [{ topic := "home/lounge/motion", payload := Payload.onOff OnOff.Off,
             retain := true }]
    ∧ (run_until demo_devices demo_second_trigger.1.timers.length
        demo_second_trigger.1 140).1.handles = [] := by
  refine ⟨scheduler_nodup_preserved, scheduler_trigger_shape, scheduler_fire_shape,
    scheduler_stop_shape, ?_, ?_, ?_⟩
  · rfl
  · rfl
  · rfl

/-- Claim C4 witness: each hypothesis-bearing conjunct of the theorem at a
concrete input: the key-uniqueness preservation at the first trigger, the
fresh-handle recording at the second trigger, the fire semantics at the
armed state, and the shutdown semantics. -/
theorem c4_auto_reset_discipline_witness :
    (((device_on_event demo_devices SchedState.init 0 7
        DeviceEventCode.Trigger).1.handles.map Prod.fst).Nodup)
    ∧ lookup_handle (device_on_event demo_devices demo_first_trigger.1 40 7
        DeviceEventCode.Trigger).1.handles 7 = some 1
    ∧ auto_reset demo_devices demo_second_trigger.1 7
        = some ({ demo_second_trigger.1 with
                  handles := demo_second_trigger.1.handles.filter (fun p => p.1 != 7) },
                [{ topic := "home/lounge/motion", payload := Payload.onOff OnOff.Off,
                   retain := true }])
    ∧ (async_stop_auto_reset demo_second_trigger.1).handles = [] :=
  ⟨c4_auto_reset_discipline.1 demo_devices SchedState.init 0 7 DeviceEventCode.Trigger
      (by simp [SchedState.init]),
   (c4_auto_reset_discipline.2.1 demo_devices demo_first_trigger.1 40 7
      { topic := "home/lounge/motion", auto_reset_interval := some 100, device_info := [] }
      (by rfl) (by decide) (by decide)).1,
   (c4_auto_reset_discipline.2.2.1 demo_devices demo_second_trigger.1 7
      { topic := "home/lounge/motion", auto_reset_interval := some 100, device_info := [] }
      1 (by rfl) (by decide) (by rfl)).1,
   (c4_auto_reset_discipline.2.2.2.1 demo_second_trigger.1).1⟩

/-- Modelled from the spec: device property-name constants of the external
controller library (`Device.PROP_IS_CLOSED` and friends); spec section 4.2
names the is-closed, current-reading, category, flag-set, id and scalar
properties. -/
def PROP_IS_CLOSED : String := "is_closed"

def PROP_CURRENT_READING : String := "current_reading"

def PROP_CATEGORY : String := "category"

def PROP_CHARACTERISTICS : String := "characteristics"

def PROP_ENABLE_STATUS : String := "enable_status"

def PROP_SWITCHES : String := "switches"

def PROP_SPECIAL_STATUS : String := "special_status"

def PROP_DEVICE_ID : String := "device_id"

def PROP_ZONE : String := "zone"

def PROP_TYPE : String := "type"

def PROP_RSSI_DB : String := "rssi_db"

def PROP_RSSI_BARS : String := "rssi_bars"

def PROP_HIGH_LIMIT : String := "high_limit"

def PROP_LOW_LIMIT : String := "low_limit"

def PROP_CONTROL_LIMIT_FIELDS_EXIST : String := "control_limit_fields_exist"

def PROP_CONTROL_HIGH_LIMIT : String := "control_high_limit"

def PROP_CONTROL_LOW_LIMIT : String := "control_low_limit"

/-- One defined flag bit of a flag enumeration: its member name and its
bit value. -/
structure FlagDef where
  name : String
  value : Nat
deriving DecidableEq, Repr

/-- Modelled from the spec: the four flag enumerations of the external
controller library (DCFlags for characteristics, ESFlags for
enable-status, SwitchFlags for switches, SSFlags for special-status), each
carried abstractly as its list of defined flag bits, in iteration
order. -/
structure FlagEnums where
  dc : List FlagDef
  es : List FlagDef
  sw : List FlagDef
  ss : List FlagDef
deriving DecidableEq, Repr

/-- A device as observed by the translator: its numeric id, its type, and
whether it is a SpecialDevice instance (`isinstance(device,
SpecialDevice)`). -/
structure Device where
  device_id : Nat
  type : DeviceType
  is_special : Bool
deriving DecidableEq, Repr

/-- Zero-padded 6-digit lowercase hexadecimal rendering of a device id,
as produced by the Python format specification 06x. -/
def to_hex6 (n : Nat) : String :=
  let s := String.mk (Nat.toDigits 16 n)
  String.mk (List.replicate (6 - s.length) ('0')) ++ s

/-- One retained boolean sub-topic per defined flag bit, with the bit test
`bool(value & item.value)` of the source. -/
def publish_flag_subtopics (topicParent name : String) (flags : List FlagDef)
    (v : Nat) : List Publish :=
  flags.map (fun item =>
    { topic := topicParent ++ "/" ++ name ++ "/" ++ item.name,
      payload := Payload.pbool ((v &&& item.value) != 0), retain := true })

/-- Embedding of `Translator._publish_device_property` (translator.py
lines 502-561): dispatches, in source order, on the is-closed property of
regular devices (Open/Closed for door magnets, a fixed Off otherwise),
the current reading of special devices, the category record (code and
description sub-topics), the four flag-set properties (one boolean
sub-topic per defined flag), the hex-formatted device id, and the scalar
allow-list; anything else publishes nothing. The flag-set, category and
device-id branches are only defined on values of the type those
properties actually carry (a mismatched type would raise in Python). -/
def publish_device_property (fe : FlagEnums) (topicParent : String) (device : Device)
    (name : String) (value : Value) : List Publish :=
  if !device.is_special ∧ name = PROP_IS_CLOSED then
    if device.type = DeviceType.DoorMagnet then
      [{ topic := topicParent,
         payload := Payload.openClosed (OpenClosed.parse_value value.truthy),
         retain := true }]
    else
      [{ topic := topicParent, payload := Payload.onOff OnOff.Off, retain := true }]
  else if device.is_special ∧ name = PROP_CURRENT_READING then
    [{ topic := topicParent, payload := Payload.val value, retain := true }]
  else if name = PROP_CATEGORY then
    match value with
    | Value.category items =>
        (items.filter (fun prop => prop.1 == "code" || prop.1 == "description")).map
          (fun prop =>
            { topic := topicParent ++ "/" ++ name ++ "/" ++ prop.1,
              payload := Payload.str prop.2, retain := true })
    | _ => []
  else if name = PROP_CHARACTERISTICS then
    match value with
    | Value.nat v => publish_flag_subtopics topicParent name fe.dc v
    | _ => []
  else if name = PROP_ENABLE_STATUS then
    match value with
    | Value.nat v => publish_flag_subtopics topicParent name fe.es v
    | _ => []
  else if name = PROP_SWITCHES then
    match value with
    | Value.nat v => publish_flag_subtopics topicParent name fe.sw v
    | _ => []
  else if name = PROP_SPECIAL_STATUS then
    match value with
    | Value.nat v => publish_flag_subtopics topicParent name fe.ss v
    | _ => []
  else if name = PROP_DEVICE_ID then
    match value with
    | Value.nat v =>
        [{ topic := topicParent ++ "/" ++ name, payload := Payload.str (to_hex6 v),
           retain := true }]
    | _ => []
  else if name = PROP_DEVICE_ID ∨ name = PROP_ZONE ∨ name = PROP_TYPE ∨
      name = PROP_RSSI_DB ∨ name = PROP_RSSI_BARS ∨ name = PROP_HIGH_LIMIT ∨
      name = PROP_LOW_LIMIT ∨ name = PROP_CONTROL_LIMIT_FIELDS_EXIST ∨
      name = PROP_CONTROL_HIGH_LIMIT ∨ name = PROP_CONTROL_LOW_LIMIT then
    [{ topic := topicParent ++ "/" ++ name, payload := Payload.val value, retain := true }]
  else []

/-- Claim C5: for each of the four flag-set properties with raw bitmask v,
the translator publishes exactly one retained boolean sub-topic per
defined flag bit of the corresponding flag enumeration, named
topic/property/flag, whose value is the test (v AND bit) not zero. -/
theorem c5_flag_set_subtopics (fe : FlagEnums) (tp : String) (device : Device) (v : Nat) :
    publish_device_property fe tp device PROP_CHARACTERISTICS (Value.nat v)
      = fe.dc.map (fun item =>
          { topic := tp ++ "/" ++ PROP_CHARACTERISTICS ++ "/" ++ item.name,
            payload := Payload.pbool ((v &&& item.value) != 0), retain := true })
    ∧ publish_device_property fe tp device PROP_ENABLE_STATUS (Value.nat v)
      = fe.es.map (fun item =>
          { topic := tp ++ "/" ++ PROP_ENABLE_STATUS ++ "/" ++ item.name,
            payload := Payload.pbool ((v &&& item.value) != 0), retain := true })
    ∧ publish_device_property fe tp device PROP_SWITCHES (Value.nat v)
      = fe.sw.map (fun item =>
          { topic := tp ++ "/" ++ PROP_SWITCHES ++ "/" ++ item.name,
            payload := Payload.pbool ((v &&& item.value) != 0), retain := true })
    ∧ publish_device_property fe tp device PROP_SPECIAL_STATUS (Value.nat v)
      = fe.ss.map (fun item =>
          { topic := tp ++ "/" ++ PROP_SPECIAL_STATUS ++ "/" ++ item.name,
            payload := Payload.pbool ((v &&& item.value) != 0), retain := true }) := by
  refine ⟨?_, ?_, ?_, ?_⟩ <;>
    simp [publish_device_property, publish_flag_subtopics, PROP_IS_CLOSED,
      PROP_CURRENT_READING, PROP_CATEGORY, PROP_CHARACTERISTICS, PROP_ENABLE_STATUS,
      PROP_SWITCHES, PROP_SPECIAL_STATUS]

/-- Keys and fixed strings of the Home Assistant MQTT discovery documents
(`Translator.AVAILABILITY_TOPIC` and friends). -/
def AVAILABILITY_TOPIC : String := "availability_topic"

def COMMAND_TOPIC : String := "command_topic"

def DEVICE : String := "device"

def DEVICE_CLASS : String := "device_class"

def ENTITY_CATEGORY : String := "entity_category"

def ICON : String := "icon"

def IDENTIFIERS : String := "identifiers"

def NAME : String := "name"

def OBJECT_ID : String := "object_id"

def PAYLOAD_ARM_AWAY : String := "payload_arm_away"

def PAYLOAD_ARM_HOME : String := "payload_arm_home"

def PAYLOAD_AVAILABLE : String := "payload_available"

def PAYLOAD_DISARM : String := "payload_disarm"

def PAYLOAD_NOT_AVAILABLE : String := "payload_not_available"

def PAYLOAD_OFF : String := "payload_off"

def PAYLOAD_ON : String := "payload_on"

def STATE_TOPIC : String := "state_topic"

def UNIQUE_ID : String := "unique_id"

def UNIT_OF_MEASUREMENT : String := "unit_of_measurement"

def DC_BATTERY : String := "battery"

def DC_DOOR : String := "door"

def DC_MOTION : String := "motion"

def DC_SMOKE : String := "smoke"

def ICON_RSSI : String := "mdi:wifi"

def DIAGNOSTIC : String := "diagnostic"

def PLATFORM_ALARM_CONTROL_PANEL : String := "alarm_control_panel"

def PLATFORM_BINARY_SENSOR : String := "binary_sensor"

def PLATFORM_SENSOR : String := "sensor"

def UOM_RSSI : String := "dB"

/-- Sub-topic for settable topics (`Translator.TOPIC_SET`). -/
def TOPIC_SET : String := "set"

/-- Modelled from the spec: the Python string renderings of the payload
encodings (str of the On/Off, Open/Closed and event-code enumeration
members, and of the booleans True and False) used inside discovery
documents. -/
def OnOff.render : OnOff → String
  | .On => "On"
  | .Off => "Off"

def OpenClosed.render : OpenClosed → String
  | .Open => "Open"
  | .Closed => "Closed"

/-- Base-unit section of the translator configuration
(`config.TranslatorBaseUnitConfig`): topic and optional discovery
device-info block. -/
structure TranslatorBaseUnitConfig where
  topic : String
  device_info : List (String × String)
deriving DecidableEq, Repr

/-- Translator section of the configuration (`config.TranslatorConfig`):
optional birth payload and topic, optional discovery topic root (the
source's discovery-prefix setting, field shortened to discovery_pfx), the
base-unit section and the per-device table keyed by device id. -/
structure TranslatorConfig where
  birth_payload : Option String
  birth_topic : Option String
  discovery_pfx : Option String
  baseunit : TranslatorBaseUnitConfig
  devices : List (Nat × TranslatorDeviceConfig)
deriving DecidableEq, Repr

/-- Python truthiness of an optional string setting. -/
def opt_truthy : Option String → Bool
  | Option.none => false
  | some s => s != ""

/-- Python string formatting of an optional string (None renders as the
four-letter word None). -/
def opt_str : Option String → String
  | Option.none => "None"
  | some s => s

/-- Embedding of `Translator._add_device_identifiers` (translator.py lines
726-728): the configured device-info mapping merged with the fixed
identifiers entry, the identifiers entry winning; only the resulting
key-to-value mapping is observed, so the winning entry is appended. -/
def add_device_identifiers (deviceId : Nat)
    (ha_device_info : List (String × String)) : JsonVal :=
  JsonVal.obj
    ((ha_device_info.filter (fun p => p.1 != IDENTIFIERS)).map
        (fun p => (p.1, JsonVal.str p.2))
      ++ [(IDENTIFIERS, JsonVal.str ("LifeSOS_" ++ to_hex6 deviceId))])

/-- Embedding of `Translator._publish_device_config` (translator.py lines
615-659): builds the discovery document for a configured device and
publishes it, not retained, at the discovery root for the device's
platform; smoke detectors, door magnets and PIR sensors map to the
binary_sensor platform with their device class and payloads, any other
type is skipped with a warning. -/
def publish_device_config (cfg : TranslatorConfig) (device : Device)
    (dc : TranslatorDeviceConfig) : List Publish :=
  let uid := "lifesos_" ++ to_hex6 device.device_id
  let base : List (String × JsonVal) :=
    [(NAME, JsonVal.jnull),
     (OBJECT_ID, JsonVal.str uid),
     (UNIQUE_ID, JsonVal.str uid),
     (STATE_TOPIC, JsonVal.str dc.topic),
     (AVAILABILITY_TOPIC, JsonVal.str (cfg.baseunit.topic ++ "/" ++ PROP_IS_CONNECTED)),
     (PAYLOAD_AVAILABLE, JsonVal.str "True"),
     (PAYLOAD_NOT_AVAILABLE, JsonVal.str "False"),
     (DEVICE, add_device_identifiers device.device_id dc.device_info)]
  let extras : Option (String × List (String × JsonVal)) :=
    if device.type = DeviceType.SmokeDetector then
      some (PLATFORM_BINARY_SENSOR,
        [(DEVICE_CLASS, JsonVal.str DC_SMOKE),
         (PAYLOAD_ON, JsonVal.str (OnOff.render OnOff.On)),
         (PAYLOAD_OFF, JsonVal.str (OnOff.render OnOff.Off))])
    else if device.type = DeviceType.DoorMagnet then
      some (PLATFORM_BINARY_SENSOR,
        [(DEVICE_CLASS, JsonVal.str DC_DOOR),
         (PAYLOAD_ON, JsonVal.str (OpenClosed.render OpenClosed.Open)),
         (PAYLOAD_OFF, JsonVal.str (OpenClosed.render OpenClosed.Closed))])
    else if device.type = DeviceType.PIRSensor then
      some (PLATFORM_BINARY_SENSOR,
        [(DEVICE_CLASS, JsonVal.str DC_MOTION),
         (PAYLOAD_ON, JsonVal.str (OnOff.render OnOff.On)),
         (PAYLOAD_OFF, JsonVal.str (OnOff.render OnOff.Off))])
    else Option.none
  match extras with
  | Option.none => []
  | some pe =>
      [{ topic := opt_str cfg.discovery_pfx ++ "/" ++ pe.1 ++ "/" ++ uid ++ "/config",
         payload := Payload.json (JsonVal.obj (base ++ pe.2)), retain := false }]

/-- Embedding of `Translator._publish_device_rssi_config` (translator.py
lines 661-691): the discovery document for the device's RSSI sensor,
published not retained on the sensor platform. -/
def publish_device_rssi_config (cfg : TranslatorConfig) (device : Device)
    (dc : TranslatorDeviceConfig) : List Publish :=
  let uid := "lifesos_" ++ to_hex6 device.device_id ++ "_rssi"
  [{ topic := opt_str cfg.discovery_pfx ++ "/" ++ PLATFORM_SENSOR ++ "/" ++ uid ++ "/config",
     payload := Payload.json (JsonVal.obj
       [(NAME, JsonVal.str "RSSI"),
        (OBJECT_ID, JsonVal.str uid),
        (UNIQUE_ID, JsonVal.str uid),
        (ICON, JsonVal.str ICON_RSSI),
        (STATE_TOPIC, JsonVal.str (dc.topic ++ "/" ++ PROP_RSSI_DB)),
        (UNIT_OF_MEASUREMENT, JsonVal.str UOM_RSSI),
        (AVAILABILITY_TOPIC, JsonVal.str (cfg.baseunit.topic ++ "/" ++ PROP_IS_CONNECTED)),
        (PAYLOAD_AVAILABLE, JsonVal.str "True"),
        (PAYLOAD_NOT_AVAILABLE, JsonVal.str "False"),
        (ENTITY_CATEGORY, JsonVal.str DIAGNOSTIC),
        (DEVICE, add_device_identifiers device.device_id dc.device_info)]),
     retain := false }]

/-- Embedding of `Translator._publish_device_battery_config`
(translator.py lines 693-724): the discovery document for the device's
battery binary sensor, published not retained; the on/off payloads are
the BatteryLow and PowerOnReset event-code names. -/
def publish_device_battery_config (cfg : TranslatorConfig) (device : Device)
    (dc : TranslatorDeviceConfig) : List Publish :=
  let uid := "lifesos_" ++ to_hex6 device.device_id ++ "_battery"
  [{ topic := opt_str cfg.discovery_pfx ++ "/" ++ PLATFORM_BINARY_SENSOR ++ "/" ++ uid
        ++ "/config",
     payload := Payload.json (JsonVal.obj
       [(NAME, JsonVal.str "Battery"),
        (OBJECT_ID, JsonVal.str uid),
        (UNIQUE_ID, JsonVal.str uid),
        (DEVICE_CLASS, JsonVal.str DC_BATTERY),
        (PAYLOAD_ON, JsonVal.str "BatteryLow"),
        (PAYLOAD_OFF, JsonVal.str "PowerOnReset"),
        (STATE_TOPIC, JsonVal.str (dc.topic ++ "/battery")),
        (AVAILABILITY_TOPIC, JsonVal.str (cfg.baseunit.topic ++ "/" ++ PROP_IS_CONNECTED)),
        (PAYLOAD_AVAILABLE, JsonVal.str "True"),
        (PAYLOAD_NOT_AVAILABLE, JsonVal.str "False"),
        (ENTITY_CATEGORY, JsonVal.str DIAGNOSTIC),
        (DEVICE, add_device_identifiers device.device_id dc.device_info)]),
     retain := false }]

/-- Embedding of `Translator._baseunit_device_added` (translator.py lines
354-377): a device with no entry in the configured-devices table is
ignored entirely; otherwise, when a discovery root and a device topic are
configured, the three discovery documents are published. -/
def baseunit_device_added (cfg : TranslatorConfig) (device : Device) : List Publish :=
  match devices_get cfg.devices device.device_id with
  | Option.none => []
  | some dc =>
      if opt_truthy cfg.discovery_pfx then
        if dc.topic != "" then
          publish_device_config cfg device dc
            ++ publish_device_rssi_config cfg device dc
            ++ publish_device_battery_config cfg device dc
        else []
      else []

/-- Embedding of `Translator._device_on_properties_changed` (translator.py
lines 462-468): for a configured device with a truthy topic, each change
is published through the device property dispatch; otherwise nothing. -/
def device_on_properties_changed (fe : FlagEnums)
    (devices : List (Nat × TranslatorDeviceConfig)) (device : Device)
    (changes : List (String × Value)) : List Publish :=
  match devices_get devices device.device_id with
  | some dc =>
      if dc.topic != "" then
        (changes.map (fun c => publish_device_property fe dc.topic device c.1 c.2)).flatten
      else []
  | Option.none => []

/-- Embedding of `Translator._publish_baseunit_config` (translator.py
lines 584-613): the alarm-control-panel discovery document for the base
unit, published not retained at the discovery root. The device block is
the fixed identifiers entry merged with the configured device-info block,
the device-info entries winning on key collision (dict-literal merge,
later entries win). -/
def publish_baseunit_config (cfg : TranslatorConfig) : List Publish :=
  let deviceBlock : JsonVal :=
    if cfg.baseunit.device_info.any (fun p => p.1 == IDENTIFIERS) then
      JsonVal.obj (cfg.baseunit.device_info.map (fun p => (p.1, JsonVal.str p.2)))
    else
      JsonVal.obj ((IDENTIFIERS, JsonVal.str "lifesos_baseunit")
        :: cfg.baseunit.device_info.map (fun p => (p.1, JsonVal.str p.2)))
  [{ topic := opt_str cfg.discovery_pfx ++ "/" ++ PLATFORM_ALARM_CONTROL_PANEL
        ++ "/lifesos_baseunit/config",
     payload := Payload.json (JsonVal.obj
       [(NAME, JsonVal.jnull),
        (OBJECT_ID, JsonVal.str "lifesos_baseunit"),
        (UNIQUE_ID, JsonVal.str "lifesos_baseunit"),
        (STATE_TOPIC, JsonVal.str (cfg.baseunit.topic ++ "/" ++ TOPIC_STATE)),
        (COMMAND_TOPIC, JsonVal.str (cfg.baseunit.topic ++ "/" ++ PROP_OPERATION_MODE
          ++ "/" ++ TOPIC_SET)),
        (PAYLOAD_DISARM, JsonVal.str (OperationMode.memberName OperationMode.Disarm)),
        (PAYLOAD_ARM_HOME, JsonVal.str (OperationMode.memberName OperationMode.Home)),
        (PAYLOAD_ARM_AWAY, JsonVal.str (OperationMode.memberName OperationMode.Away)),
        (AVAILABILITY_TOPIC, JsonVal.str (cfg.baseunit.topic ++ "/" ++ PROP_IS_CONNECTED)),
        (PAYLOAD_AVAILABLE, JsonVal.str "True"),
        (PAYLOAD_NOT_AVAILABLE, JsonVal.str "False"),
        (DEVICE, deviceBlock)]),
     retain := false }]

/-- The collaborator state the discovery republish reads: the adapter's
currently known device set (`self._baseunit.devices`) and the shutdown
flag checked between devices. -/
structure HaEnv where
  known_devices : List Device
  shutdown : Bool
deriving DecidableEq, Repr

/-- Embedding of `Translator._publish_ha_config` (translator.py lines
563-582): nothing without a discovery root; else the base-unit document
when the base-unit topic is truthy, then, unless shutdown aborts the
iteration before the first device, the three documents for every
configured device currently known to the adapter whose topic is
truthy. -/
def publish_ha_config (cfg : TranslatorConfig) (env : HaEnv) : List Publish :=
  if !opt_truthy cfg.discovery_pfx then []
  else
    let basePubs : List Publish :=
      if cfg.baseunit.topic != "" then publish_baseunit_config cfg else []
    let devPubs : List Publish :=
      if env.shutdown then []
      else
        (cfg.devices.map (fun entry =>
          match env.known_devices.find? (fun d => d.device_id == entry.1) with
          | some device =>
              if entry.2.topic != "" then
                publish_device_config cfg device entry.2
                  ++ publish_device_rssi_config cfg device entry.2
                  ++ publish_device_battery_config cfg device entry.2
              else []
          | Option.none => [])).flatten
    basePubs ++ devPubs

/-- Embedding of `Translator._on_message` (translator.py lines 779-786),
the birth-topic handler: an empty inbound payload decodes to the absent
value and returns immediately; a non-empty payload equal to the
configured birth payload triggers the full discovery republish; any other
payload does nothing. -/
def on_message_birth (cfg : TranslatorConfig) (env : HaEnv)
    (payloadRaw : String) : List Publish :=
  let payload : Option String := if payloadRaw = "" then Option.none else some payloadRaw
  match payload with
  | Option.none => []
  | some p => if some p = cfg.birth_payload then publish_ha_config cfg env else []

/-- Modelled from the spec: the broker client's accepted-connection and
clean-disconnect result codes (constants of the external MQTT client
library). -/
def CONNACK_ACCEPTED : Nat := 0

def MQTT_ERR_SUCCESS : Nat := 0

/-- Modelled from the spec: one entry of the subscribe-topic registry
(`lifesospy_mqtt.subscribetopic.SubscribeTopic`, repository module outside
the translator source); only its topic and QoS are observed by the
connect handler. -/
structure SubscribeTopicEntry where
  topic : String
  qos : Nat
deriving DecidableEq, Repr

/-- Connection bookkeeping of the translator
(`self._mqtt_was_connected`, `self._mqtt_last_connection`,
`self._mqtt_last_disconnection`), with timestamps as integers. -/
structure ConnBookkeeping where
  was_connected : Bool
  last_connection : Option Int
  last_disconnection : Option Int
deriving DecidableEq, Repr

/-- The observable outcome of `Translator._mqtt_on_connect`: the new
bookkeeping, the outage duration logged on a reconnect (when the
subtraction succeeds), the publishes, and the topic/QoS subscriptions
requested. -/
structure ConnectResult where
  book : ConnBookkeeping
  outage : Option Int
  publishes : List Publish
  subscribes : List (String × Nat)
deriving Repr

/-- Embedding of `Translator._mqtt_on_connect` (translator.py lines
307-341): a non-accepted result code only logs; on acceptance the connect
timestamp is recorded, the first connection sets the was-connected flag, a
reconnection logs the outage as last-connection minus last-disconnection
(the subtraction raises and is caught when no disconnect was recorded),
the connectivity flag is republished retained with the adapter's current
value, and every registry entry is subscribed. -/
def mqtt_on_connect (topicParent : String) (subs : List SubscribeTopicEntry)
    (bk : ConnBookkeeping) (now : Int) (baseunit_is_connected : Bool)
    (result_code : Nat) : ConnectResult :=
  if result_code != CONNACK_ACCEPTED then
    { book := bk, outage := Option.none, publishes := [], subscribes := [] }
  else
    let bk1 : ConnBookkeeping := { bk with last_connection := some now }
    let bk2 : ConnBookkeeping :=
      if !bk.was_connected then { bk1 with was_connected := true } else bk1
    let outage : Option Int :=
      if bk.was_connected then
        match bk.last_disconnection with
        | some d => some (now - d)
        | Option.none => Option.none
      else Option.none
    { book := bk2, outage := outage,
      publishes := [{ topic := topicParent ++ "/" ++ PROP_IS_CONNECTED,
                      payload := Payload.pbool baseunit_is_connected, retain := true }],
      subscribes := subs.map (fun st => (st.topic, st.qos)) }

/-- Embedding of `Translator._mqtt_on_disconnect` (translator.py lines
343-348): an unexpected disconnect records the disconnect timestamp; a
clean disconnect records nothing. -/
def mqtt_on_disconnect (bk : ConnBookkeeping) (now : Int)
    (result_code : Nat) : ConnBookkeeping :=
  if result_code != MQTT_ERR_SUCCESS then { bk with last_disconnection := some now }
  else bk

/-- A concrete translator configuration for witnesses: discovery enabled,
birth payload online, with the device-7 table. -/
def demo_cfg : TranslatorConfig :=
  { birth_payload := some "online", birth_topic := some "homeassistant/status",
    discovery_pfx := some "homeassistant",
    baseunit := { topic := "home/alarm", device_info := [] },
    devices := demo_devices }

/-- Concrete flag enumerations for witnesses (example name/bit pairs). -/
def demo_flag_enums : FlagEnums :=
  { dc := [{ name := "Repeater", value := 128 }, { name := "BaseUnit", value := 64 }],
    es := [{ name := "Bypass", value := 32 }, { name := "Delay", value := 16 }],
    sw := [{ name := "SW01", value := 1 }, { name := "SW02", value := 2 }],
    ss := [{ name := "HighLowOperation", value := 2 }] }

/-- Claim C6: a device whose id has no entry in the device configuration
table is fully ignored: a device event produces no publish and leaves the
scheduler untouched, a property change produces no publish, and device
addition produces no discovery document. -/
theorem c6_unconfigured_device_ignored (fe : FlagEnums) (cfg : TranslatorConfig)
    (s : SchedState) (now : Nat) (code : DeviceEventCode) (device : Device)
    (changes : List (String × Value))
    (h : devices_get cfg.devices device.device_id = Option.none) :
    device_on_event cfg.devices s now device.device_id code = (s, [])
    ∧ device_on_properties_changed fe cfg.devices device changes = []
    ∧ baseunit_device_added cfg device = [] := by
  refine ⟨?_, ?_, ?_⟩ <;>
    simp [device_on_event, device_on_properties_changed, baseunit_device_added, h]

/-- Claim C6 witness: the theorem at the unconfigured device id 999999
with a Trigger event and a zone property change. -/
theorem c6_unconfigured_device_ignored_witness :
    device_on_event demo_cfg.devices SchedState.init 0 999999 DeviceEventCode.Trigger
        = (SchedState.init, [])
    ∧ device_on_properties_changed demo_flag_enums demo_cfg.devices
        { device_id := 999999, type := DeviceType.PIRSensor, is_special := false }
        [(PROP_ZONE, Value.str "01")] = []
    ∧ baseunit_device_added demo_cfg
        { device_id := 999999, type := DeviceType.PIRSensor, is_special := false } = [] :=
  c6_unconfigured_device_ignored demo_flag_enums demo_cfg SchedState.init 0
    DeviceEventCode.Trigger
    { device_id := 999999, type := DeviceType.PIRSensor, is_special := false }
    [(PROP_ZONE, Value.str "01")] (by rfl)

/-- Claim C8: reconnecting after a recorded unexpected disconnect logs an
outage duration equal to the reconnect time minus the disconnect time,
and every accepted connect (whatever the prior bookkeeping) republishes
the connectivity flag retained with the adapter's current value and
(re-)subscribes every registry entry. -/
theorem c8_connect_lifecycle (tp : String) (subs : List SubscribeTopicEntry)
    (bk : ConnBookkeeping) (d r : Int) (rcDisc : Nat) (connected : Bool)
    (hdisc : rcDisc ≠ MQTT_ERR_SUCCESS) (hwas : bk.was_connected = true) :
    (mqtt_on_connect tp subs (mqtt_on_disconnect bk d rcDisc) r connected
        CONNACK_ACCEPTED).outage = some (r - d)
    ∧ (∀ bk0 : ConnBookkeeping,
        (mqtt_on_connect tp subs bk0 r connected CONNACK_ACCEPTED).publishes
          = [{ topic := tp ++ "/" ++ PROP_IS_CONNECTED,
               payload := Payload.pbool connected, retain := true }]
        ∧ (mqtt_on_connect tp subs bk0 r connected CONNACK_ACCEPTED).subscribes
          = subs.map (fun st => (st.topic, st.qos))) := by
  constructor
  · have hb : (rcDisc != MQTT_ERR_SUCCESS) = true := by simpa using hdisc
    simp [mqtt_on_connect, mqtt_on_disconnect, hb, hwas]
  · intro bk0
    constructor <;> simp [mqtt_on_connect]

/-- A concrete subscribe-topic registry for witnesses, as built by the
translator constructor. -/
def demo_subs : List SubscribeTopicEntry :=
  [{ topic := "home/alarm/clear_status", qos := 1 },
   { topic := "home/alarm/datetime/set", qos := 1 },
   { topic := "home/alarm/operation_mode/set", qos := 1 },
   { topic := "homeassistant/status", qos := 1 }]

/-- Claim C8 witness: the theorem at a disconnect at time 100 and a
reconnect at time 160 while the adapter currently reports not connected,
and at a first connect. -/
theorem c8_connect_lifecycle_witness :
    (mqtt_on_connect "home/alarm" demo_subs
        (mqtt_on_disconnect
          { was_connected := true, last_connection := some 50,
            last_disconnection := Option.none } 100 1) 160 false
        CONNACK_ACCEPTED).outage = some (160 - 100)
    ∧ ((mqtt_on_connect "home/alarm" demo_subs
        { was_connected := false, last_connection := Option.none,
          last_disconnection := Option.none } 160 false CONNACK_ACCEPTED).publishes
        = [{ topic := "home/alarm" ++ "/" ++ PROP_IS_CONNECTED,
             payload := Payload.pbool false, retain := true }]
      ∧ (mqtt_on_connect "home/alarm" demo_subs
          { was_connected := false, last_connection := Option.none,
            last_disconnection := Option.none } 160 false CONNACK_ACCEPTED).subscribes
        = demo_subs.map (fun st => (st.topic, st.qos))) :=
  ⟨(c8_connect_lifecycle "home/alarm" demo_subs
      { was_connected := true, last_connection := some 50,
        last_disconnection := Option.none } 100 160 1 false (by decide) rfl).1,
   (c8_connect_lifecycle "home/alarm" demo_subs
      { was_connected := true, last_connection := some 50,
        last_disconnection := Option.none } 100 160 1 false (by decide) rfl).2
     { was_connected := false, last_connection := Option.none,
       last_disconnection := Option.none }⟩

/-- Claim C10: an empty inbound payload on the birth topic returns without
any publish, for every configuration, including the degenerate one whose
configured birth payload is itself empty; a non-empty payload equal to
the configured birth payload triggers exactly the discovery republish; a
non-empty payload different from the configured one publishes nothing;
and conversely any publish implies a non-empty payload equal to the
configured one. -/
theorem c10_birth_handler (cfg : TranslatorConfig) (env : HaEnv) (payload : String) :
    (on_message_birth cfg env "" = [])
    ∧ (payload ≠ "" → some payload = cfg.birth_payload →
        on_message_birth cfg env payload = publish_ha_config cfg env)
    ∧ (payload ≠ "" → some payload ≠ cfg.birth_payload →
        on_message_birth cfg env payload = [])
    ∧ (on_message_birth cfg env payload ≠ [] →
        payload ≠ "" ∧ some payload = cfg.birth_payload) := by
  refine ⟨?_, ?_, ?_, ?_⟩
  · simp [on_message_birth]
  · intro h1 h2
    simp only [on_message_birth, h1, if_false]
    rw [if_pos h2]
  · intro h1 h2
    simp [on_message_birth, h1, h2]
  · intro hne
    by_cases h1 : payload = ""
    · exact absurd (by simp [on_message_birth, h1]) hne
    · by_cases h2 : some payload = cfg.birth_payload
      · exact ⟨h1, h2⟩
      · exact absurd (by simp [on_message_birth, h1, h2]) hne

/-- A concrete adapter environment for witnesses: device 7 known, no
shutdown in progress. -/
def demo_env : HaEnv :=
  { known_devices := [{ device_id := 7, type := DeviceType.PIRSensor,
                        is_special := false }],
    shutdown := false }

/-- Claim C10 witness: the theorem at the degenerate empty-birth-payload
configuration with an empty inbound payload, at the matching payload
online, and at the non-matching payload offline. -/
theorem c10_birth_handler_witness :
    (on_message_birth { demo_cfg with birth_payload := some "" } demo_env "" = [])
    ∧ on_message_birth demo_cfg demo_env "online" = publish_ha_config demo_cfg demo_env
    ∧ on_message_birth demo_cfg demo_env "offline" = [] :=
  ⟨(c10_birth_handler { demo_cfg with birth_payload := some "" } demo_env "x").1,
   (c10_birth_handler demo_cfg demo_env "online").2.1 (by decide) (by rfl),
   (c10_birth_handler demo_cfg demo_env "offline").2.2.1 (by decide) (by decide)⟩
